import Mathlib

/-!
Verification development for the soci-snapshotter artifact-retrieval core.

The embedding covers:
* `fs/artifact_fetcher.go` — `artifactFetcher.Fetch`, `artifactFetcher.Store`,
  `FetchSociArtifacts` (index materialization plus the concurrent blob tasks);
* the retryable HTTP layer — `Jitter`, `BackoffStrategy`, `RetryStrategy`;
* the recorded wire facts of the ztoc flatbuffers schema.

External collaborators (the two content stores, the resolver, reference and
digest parsing, the JSON decoder) are modelled as an environment of
behaviour functions.  Durations are natural numbers of nanoseconds.  The
nondeterministic completion order of the concurrent blob tasks is modelled
by an explicit schedule: a linearization of the task set, quantified over
in the theorems.  Every operation additionally returns the list of calls it
performed on the collaborators, so that "never contacts X" style properties
are statements about that trace.
-/

namespace Soci

/-- OCI content descriptor as the fetcher uses it: digest plus size.
(`ocispec.Descriptor`; the media type plays no role in the embedded code.) -/
structure Descriptor where
  digest : String
  size : Int
deriving DecidableEq, Repr

/-- Raw content bytes. -/
abbrev Content := List Nat

/-- A readable stream: the bytes it will deliver, plus an optional read
error surfaced while draining it (`io.Copy` failure). -/
structure ByteStream where
  bytes : Content
  readErr : Option String
deriving DecidableEq, Repr

/-- The local content store state: digest-keyed entries, newest first.
A successful `Push` prepends an entry; nothing is ever deleted. -/
abbrev LocalStore := List (String × Content)

/-- Modelled from the spec: the parsed SOCI index structure (`soci.SociIndex`
is declared outside the given sources).  The spec has the Concurrent
Materializer run over "every blob Descriptor listed in the Index"; the blob
descriptor list is the only field the embedded code consumes. -/
structure SociIndex where
  blobs : List Descriptor
deriving DecidableEq, Repr

/-- Calls performed on the external collaborators, in order. -/
inductive Ev where
  | localFetch (d : Descriptor)
  | resolverResolve (ref : String)
  | remoteFetch (d : Descriptor)
  | closeStream
  | decodeIndex (bytes : Content)
  | pushLocal (d : Descriptor) (bytes : Content)
deriving DecidableEq, Repr

/-- Errors returned by `artifactFetcher.Fetch`, one constructor per wrap
site in the source: the size-zero resolution failure and the remote-store
fetch failure. -/
inductive FetchErr where
  | resolution (msg : String)
  | remote (digest : String) (msg : String)
deriving DecidableEq, Repr

/-- The behaviour of the external collaborators.  `localFetch` may fail with
an arbitrary error (the code only distinguishes `err == nil`); `pushErr`
gives the error of a `Push`, `none` meaning success; `decodeIndex` is the
JSON unmarshalling of index bytes into the (spec-modelled) `SociIndex`. -/
structure FetchEnv where
  parseReference : String → Except String String
  newRepositoryErr : String → Option String
  parseDigest : String → Except String String
  localFetch : LocalStore → Descriptor → Except String ByteStream
  resolverResolve : String → Except String Descriptor
  remoteFetch : Descriptor → Except String ByteStream
  pushErr : LocalStore → Descriptor → Content → Option String
  decodeIndex : Content → Except String SociIndex

/-- `artifactFetcher.constructRef`: the ref used for resolution,
`<locator>@<digest>`. -/
def constructRef (locator : String) (d : Descriptor) : String :=
  locator ++ "@" ++ d.digest

/-- `artifactFetcher.resolve`: resolve the constructed ref, wrapping a
failure as "unable to resolve ref (%s): %w". -/
def resolveDescriptor (env : FetchEnv) (locator : String) (d : Descriptor) :
    Except String Descriptor × List Ev :=
  match env.resolverResolve (constructRef locator d) with
  | Except.error e =>
      (Except.error ("unable to resolve ref (" ++ constructRef locator d ++ "): " ++ e),
        [Ev.resolverResolve (constructRef locator d)])
  | Except.ok d2 => (Except.ok d2, [Ev.resolverResolve (constructRef locator d)])

/-- The remote-store fetch step of `artifactFetcher.Fetch`, wrapping a
failure as "unable to fetch descriptor (%v) from remote store: %w". -/
def remoteFetchStep (env : FetchEnv) (d : Descriptor) :
    Except FetchErr (ByteStream × Bool) × List Ev :=
  match env.remoteFetch d with
  | Except.error e =>
      (Except.error (FetchErr.remote d.digest
          ("unable to fetch descriptor (" ++ d.digest ++ ") from remote store: " ++ e)),
        [Ev.remoteFetch d])
  | Except.ok rc => (Except.ok (rc, false), [Ev.remoteFetch d])

/-- The part of `artifactFetcher.Fetch` after the local-store miss: if the
descriptor size is zero, resolve it first (failure is wrapped as "size of
descriptor is 0; unable to resolve: %w" and the remote store is not
contacted); then fetch the (possibly replaced) descriptor from remote. -/
def remoteFallback (env : FetchEnv) (locator : String) (desc : Descriptor) :
    Except FetchErr (ByteStream × Bool) × List Ev :=
  if desc.size = 0 then
    match resolveDescriptor env locator desc with
    | (Except.error e, evs) =>
        (Except.error (FetchErr.resolution ("size of descriptor is 0; unable to resolve: " ++ e)), evs)
    | (Except.ok d2, evs) =>
        ((remoteFetchStep env d2).1, evs ++ (remoteFetchStep env d2).2)
  else remoteFetchStep env desc

/-- `artifactFetcher.Fetch`: check the local store first and return the
stream with `true` on success; any local error falls through to the
resolution / remote-fetch path, whose result carries `false`. -/
def Fetch (env : FetchEnv) (locator : String) (σ : LocalStore) (desc : Descriptor) :
    Except FetchErr (ByteStream × Bool) × List Ev :=
  match env.localFetch σ desc with
  | Except.ok rc => (Except.ok (rc, true), [Ev.localFetch desc])
  | Except.error _ =>
      ((remoteFallback env locator desc).1,
        Ev.localFetch desc :: (remoteFallback env locator desc).2)

/-- Message carried by a `FetchErr`, as `FetchSociArtifacts` sees it when
wrapping the error further. -/
def fetchErrMsg : FetchErr → String
  | FetchErr.resolution m => m
  | FetchErr.remote _ m => m

/-- `artifactFetcher.Store`: push the stream into the local store, wrapping
a failure as "unable to push to local store: %w".  A read error while the
push drains the stream fails the push; a successful push prepends the
digest-keyed entry. -/
def StoreArtifact (env : FetchEnv) (σ : LocalStore) (desc : Descriptor) (rc : ByteStream) :
    Except String LocalStore × List Ev :=
  match rc.readErr with
  | some e => (Except.error ("unable to push to local store: " ++ e), [])
  | none =>
      match env.pushErr σ desc rc.bytes with
      | some e =>
          (Except.error ("unable to push to local store: " ++ e), [Ev.pushLocal desc rc.bytes])
      | none => (Except.ok ((desc.digest, rc.bytes) :: σ), [Ev.pushLocal desc rc.bytes])

/-- Errors returned by `FetchSociArtifacts`, one constructor per return
site in the source. -/
inductive MatErr where
  | refParse (msg : String)
  | remoteStoreCreate (msg : String)
  | digestParse (msg : String)
  | indexFetch (msg : String)
  | copyFail (msg : String)
  | indexDecode (msg : String)
  | indexPush (msg : String)
  | blobTaskFail (msg : String)
deriving DecidableEq, Repr

/-- Data available after the sequential head of `FetchSociArtifacts`: the
decoded index, the parsed locator and digest, the raw index bytes, whether
the index came from the local store, and the local store state going into
the blob tasks. -/
structure PrepOk where
  index : SociIndex
  locator : String
  dgst : String
  indexBytes : Content
  wasLocal : Bool
  store : LocalStore
deriving DecidableEq, Repr

/-- The sequential head of `FetchSociArtifacts`: parse the image ref,
construct the remote store, parse the index digest, `Fetch` the index with
a descriptor carrying only the digest (size 0), drain and close the stream,
JSON-decode the bytes, and — only when the index was not local — push the
raw bytes under the parsed digest with the exact drained byte count as the
size. -/
def FetchSociArtifactsPrep (env : FetchEnv) (imageRef : String) (indexDigest : String)
    (σ : LocalStore) : Except MatErr PrepOk × List Ev :=
  match env.parseReference imageRef with
  | Except.error e =>
      (Except.error (MatErr.refParse ("cannot parse image ref (" ++ imageRef ++ "): " ++ e)), [])
  | Except.ok loc =>
      match env.newRepositoryErr loc with
      | some e =>
          (Except.error (MatErr.remoteStoreCreate
              ("cannot create remote store: cannot create repository " ++ loc ++ ": " ++ e)), [])
      | none =>
          match env.parseDigest indexDigest with
          | Except.error e => (Except.error (MatErr.digestParse e), [])
          | Except.ok dgst =>
              match Fetch env loc σ (Descriptor.mk dgst 0) with
              | (Except.error e, evs) =>
                  (Except.error (MatErr.indexFetch
                      ("unable to fetch SOCI index: " ++ fetchErrMsg e)), evs)
              | (Except.ok (rc, lcl), evs) =>
                  match rc.readErr with
                  | some e => (Except.error (MatErr.copyFail e), evs ++ [Ev.closeStream])
                  | none =>
                      match env.decodeIndex rc.bytes with
                      | Except.error e =>
                          (Except.error (MatErr.indexDecode e),
                            evs ++ [Ev.closeStream, Ev.decodeIndex rc.bytes])
                      | Except.ok index =>
                          if lcl then
                            (Except.ok (PrepOk.mk index loc dgst rc.bytes true σ),
                              evs ++ [Ev.closeStream, Ev.decodeIndex rc.bytes])
                          else
                            match env.pushErr σ (Descriptor.mk dgst (rc.bytes.length : Int))
                                rc.bytes with
                            | some e =>
                                (Except.error (MatErr.indexPush e),
                                  evs ++ [Ev.closeStream, Ev.decodeIndex rc.bytes,
                                    Ev.pushLocal (Descriptor.mk dgst (rc.bytes.length : Int))
                                      rc.bytes])
                            | none =>
                                (Except.ok (PrepOk.mk index loc dgst rc.bytes false
                                    ((dgst, rc.bytes) :: σ)),
                                  evs ++ [Ev.closeStream, Ev.decodeIndex rc.bytes,
                                    Ev.pushLocal (Descriptor.mk dgst (rc.bytes.length : Int))
                                      rc.bytes])

/-- One blob task of the errgroup in `FetchSociArtifacts`: `Fetch` the blob
(wrapping a failure as "cannot fetch artifact: %w"); if it was already
local do nothing, otherwise `Store` it; the stream is closed on every exit
path that obtained one. -/
def blobTask (env : FetchEnv) (locator : String) (σ : LocalStore) (blob : Descriptor) :
    Except String LocalStore × List Ev :=
  match Fetch env locator σ blob with
  | (Except.error e, evs) => (Except.error ("cannot fetch artifact: " ++ fetchErrMsg e), evs)
  | (Except.ok (_, true), evs) => (Except.ok σ, evs ++ [Ev.closeStream])
  | (Except.ok (rc, false), evs) =>
      ((StoreArtifact env σ blob rc).1,
        evs ++ (StoreArtifact env σ blob rc).2 ++ [Ev.closeStream])

/-- Run the blob tasks in the given linearization order, threading the
local store state.  Each task's outcome is recorded (`none` for success);
a failed task leaves the store as it found it and the remaining tasks still
run (the errgroup waits for every task). -/
def runBlobTasks (env : FetchEnv) (locator : String) :
    LocalStore → List Descriptor → LocalStore × List (Option String) × List Ev
  | σ, [] => (σ, [], [])
  | σ, b :: bs =>
      match blobTask env locator σ b with
      | (Except.ok σ2, evs) =>
          ((runBlobTasks env locator σ2 bs).1,
            none :: (runBlobTasks env locator σ2 bs).2.1,
            evs ++ (runBlobTasks env locator σ2 bs).2.2)
      | (Except.error e, evs) =>
          ((runBlobTasks env locator σ bs).1,
            some e :: (runBlobTasks env locator σ bs).2.1,
            evs ++ (runBlobTasks env locator σ bs).2.2)

/-- First error among the task outcomes, in completion order — what
`errgroup.Wait` reports. -/
def firstErr : List (Option String) → Option String
  | [] => none
  | none :: rs => firstErr rs
  | some e :: _ => some e

/-- `FetchSociArtifacts`: the sequential head followed by the concurrent
blob tasks over the schedule `sched` (a linearization of the blob list).
Returns the result, the final local store state, and the call trace. -/
def FetchSociArtifacts (env : FetchEnv) (imageRef : String) (indexDigest : String)
    (σ : LocalStore) (sched : List Descriptor) :
    Except MatErr SociIndex × LocalStore × List Ev :=
  match FetchSociArtifactsPrep env imageRef indexDigest σ with
  | (Except.error e, evs) => (Except.error e, σ, evs)
  | (Except.ok p, evs) =>
      match firstErr (runBlobTasks env p.locator p.store sched).2.1 with
      | some e =>
          (Except.error (MatErr.blobTaskFail e),
            (runBlobTasks env p.locator p.store sched).1,
            evs ++ (runBlobTasks env p.locator p.store sched).2.2)
      | none =>
          (Except.ok p.index,
            (runBlobTasks env p.locator p.store sched).1,
            evs ++ (runBlobTasks env p.locator p.store sched).2.2)

/-- `Jitter` (retryable HTTP layer): `rand.Int63n(duration/divisor)` plus
`duration`, where the division is integer division in nanoseconds.  The
random draw is modelled by `j % (duration / divisor)` for an arbitrary seed
`j`; `rand.Int63n` panics when its bound is not positive, modelled as
`none`. -/
def Jitter (duration : Nat) (divisor : Nat) (j : Nat) : Option Nat :=
  if duration / divisor = 0 then none
  else some (j % (duration / divisor) + duration)

/-- Modelled from the spec: `DefaultBackoff` of the external retryable-http
dependency (its source is outside this repository).  Per the spec it
"either tries to parse the Retry-After header of the response; or, it uses
an exponential backoff 2 ^ numAttempts, limited by max": a parseable
Retry-After hint on an applicable response yields that many seconds,
otherwise the exponential delay `2 ^ attempt` times the minimum wait is
returned, clamped to the maximum wait. -/
def DefaultBackoff (minWait maxWait : Nat) (attemptNum : Nat)
    (retryAfterSecs : Option Nat) : Nat :=
  match retryAfterSecs with
  | some s => s * 1000000000
  | none =>
      if 2 ^ attemptNum * minWait ≤ maxWait then 2 ^ attemptNum * minWait else maxWait

/-- `BackoffStrategy`: the delay of `DefaultBackoff`, jittered with
divisor 8. -/
def BackoffStrategy (minWait maxWait : Nat) (attemptNum : Nat)
    (retryAfterSecs : Option Nat) (j : Nat) : Option Nat :=
  Jitter (DefaultBackoff minWait maxWait attemptNum retryAfterSecs) 8 j

/-- Outcome of one HTTP attempt, as the retry policy inspects it: either a
network-level error (flagged when it is one of the non-retryable
URL-construction errors) or a response with a status code. -/
inductive RequestOutcome where
  | netErr (nonRetryableURL : Bool)
  | response (status : Nat)
deriving DecidableEq, Repr

/-- Modelled from the spec: `DefaultRetryPolicy` of the external
retryable-http dependency (its source is outside this repository).  Per the
spec it retries "on network-level errors (excluding a small set of
non-retryable URL-construction errors) and on HTTP status 429 or any 5xx
except 501; all other outcomes are terminal". -/
def DefaultRetryPolicy : RequestOutcome → Bool
  | RequestOutcome.netErr nonRetryableURL => !nonRetryableURL
  | RequestOutcome.response status =>
      status == 429 || (decide (500 ≤ status) && decide (status ≤ 599) && status != 501)

/-- `RetryStrategy`: logs when retrying and otherwise returns exactly the
decision of `DefaultRetryPolicy`. -/
def RetryStrategy (o : RequestOutcome) : Bool :=
  DefaultRetryPolicy o

/-- Wire formats a decoder can target. -/
inductive WireFormat where
  | json
  | tableBinary
deriving DecidableEq, Repr

/-- The decoder `FetchSociArtifacts` applies to the fetched index bytes is
`json.Unmarshal`: the SOCI index is JSON on the wire. -/
def sociIndexWireFormat : WireFormat := WireFormat.json

/-- The designated root type of the table-based binary (flatbuffers) schema
shipped with the sources: `root_type Ztoc` — the ztoc blobs, not the SOCI
index, use the table-based binary encoding. -/
def ztocSchemaRootType : String := "Ztoc"

/-- Recognizer for index-decode calls in a trace. -/
def isDecodeEv : Ev → Bool
  | Ev.decodeIndex _ => true
  | _ => false

/-- Concrete collaborator behaviour used to evaluate the theorems: the
local store always misses, resolution yields a sized descriptor, remote
fetch fails exactly on size-99 descriptors, pushes succeed, and decoding
yields an index listing two blobs of which the second has size 99. -/
def cenv : FetchEnv where
  parseReference := fun s => Except.ok s
  newRepositoryErr := fun _ => none
  parseDigest := fun s => Except.ok s
  localFetch := fun _ _ => Except.error "not found"
  resolverResolve := fun _ => Except.ok (Descriptor.mk "sha256:idx" 4)
  remoteFetch := fun d =>
    if d.size = 99 then Except.error "boom" else Except.ok (ByteStream.mk [7, 7] none)
  pushErr := fun _ _ _ => none
  decodeIndex := fun _ =>
    Except.ok (SociIndex.mk [Descriptor.mk "b1" 1, Descriptor.mk "b2" 99])

/-- The concrete behaviour with a failing resolver. -/
def cenvResolveFail : FetchEnv :=
  { cenv with resolverResolve := fun _ => Except.error "nope" }

/-- The concrete behaviour with a local store that always hits. -/
def cenvLocalHit : FetchEnv :=
  { cenv with localFetch := fun _ _ => Except.ok (ByteStream.mk [1] none) }

/-- The concrete behaviour with a failing index decoder. -/
def cenvDecodeFail : FetchEnv :=
  { cenv with decodeIndex := fun _ => Except.error "bad json" }

theorem resolveDescriptor_snd (env : FetchEnv) (locator : String) (d : Descriptor) :
    (resolveDescriptor env locator d).2 = [Ev.resolverResolve (constructRef locator d)] := by
  unfold resolveDescriptor
  split <;> rfl

theorem remoteFetchStep_snd (env : FetchEnv) (d : Descriptor) :
    (remoteFetchStep env d).2 = [Ev.remoteFetch d] := by
  unfold remoteFetchStep
  split <;> rfl

theorem remoteFallback_trace_cases (env : FetchEnv) (locator : String) (desc : Descriptor) :
    (remoteFallback env locator desc).2 = [Ev.resolverResolve (constructRef locator desc)] ∨
    (∃ d2, (remoteFallback env locator desc).2 =
      [Ev.resolverResolve (constructRef locator desc), Ev.remoteFetch d2]) ∨
    (remoteFallback env locator desc).2 = [Ev.remoteFetch desc] := by
  unfold remoteFallback
  split
  · split
    · next e evs heq =>
      left
      have h2 := congrArg Prod.snd heq
      rw [resolveDescriptor_snd] at h2
      simpa using h2.symm
    · next d2 evs heq =>
      right; left
      refine ⟨d2, ?_⟩
      have h2 := congrArg Prod.snd heq
      rw [resolveDescriptor_snd] at h2
      have h3 : evs = [Ev.resolverResolve (constructRef locator desc)] := by
        simpa using h2.symm
      simp [h3, remoteFetchStep_snd]
  · right; right
    exact remoteFetchStep_snd env desc

theorem fetch_trace_cases (env : FetchEnv) (locator : String) (σ : LocalStore)
    (d : Descriptor) :
    (Fetch env locator σ d).2 = [Ev.localFetch d] ∨
    (Fetch env locator σ d).2 =
      [Ev.localFetch d, Ev.resolverResolve (constructRef locator d)] ∨
    (∃ d2, (Fetch env locator σ d).2 =
      [Ev.localFetch d, Ev.resolverResolve (constructRef locator d), Ev.remoteFetch d2]) ∨
    (Fetch env locator σ d).2 = [Ev.localFetch d, Ev.remoteFetch d] := by
  unfold Fetch
  split
  · left; rfl
  · rcases remoteFallback_trace_cases env locator d with h | ⟨d2, h⟩ | h
    · right; left; simp [h]
    · right; right; left; exact ⟨d2, by simp [h]⟩
    · right; right; right; simp [h]

theorem fetch_no_decode (env : FetchEnv) (locator : String) (σ : LocalStore)
    (d : Descriptor) (bb : Content) : Ev.decodeIndex bb ∉ (Fetch env locator σ d).2 := by
  rcases fetch_trace_cases env locator σ d with h | h | ⟨d2, h⟩ | h <;> simp [h]

theorem fetch_no_push (env : FetchEnv) (locator : String) (σ : LocalStore)
    (d : Descriptor) (dd : Descriptor) (bb : Content) :
    Ev.pushLocal dd bb ∉ (Fetch env locator σ d).2 := by
  rcases fetch_trace_cases env locator σ d with h | h | ⟨d2, h⟩ | h <;> simp [h]

theorem storeArtifact_no_decode (env : FetchEnv) (σ : LocalStore) (desc : Descriptor)
    (rc : ByteStream) (bb : Content) :
    Ev.decodeIndex bb ∉ (StoreArtifact env σ desc rc).2 := by
  unfold StoreArtifact
  split
  · simp
  · split <;> simp

theorem blobTask_no_decode (env : FetchEnv) (locator : String) (σ : LocalStore)
    (blob : Descriptor) (bb : Content) :
    Ev.decodeIndex bb ∉ (blobTask env locator σ blob).2 := by
  unfold blobTask
  split
  · next e evs heq =>
    simpa [heq] using fetch_no_decode env locator σ blob bb
  · next rc evs heq =>
    have h1 : Ev.decodeIndex bb ∉ evs := by
      simpa [heq] using fetch_no_decode env locator σ blob bb
    simp [h1]
  · next rc evs heq =>
    have h1 : Ev.decodeIndex bb ∉ evs := by
      simpa [heq] using fetch_no_decode env locator σ blob bb
    have h2 := storeArtifact_no_decode env σ blob rc bb
    simp [h1, h2]

theorem runBlobTasks_no_decode (env : FetchEnv) (locator : String) (bs : List Descriptor)
    (bb : Content) : ∀ σ, Ev.decodeIndex bb ∉ (runBlobTasks env locator σ bs).2.2 := by
  induction bs with
  | nil => intro σ; simp [runBlobTasks]
  | cons b bs ih =>
    intro σ
    unfold runBlobTasks
    split
    · next σ2 evs heq =>
      have h1 : Ev.decodeIndex bb ∉ evs := by
        simpa [heq] using blobTask_no_decode env locator σ b bb
      have h2 := ih σ2
      simp [h1, h2]
    · next e evs heq =>
      have h1 : Ev.decodeIndex bb ∉ evs := by
        simpa [heq] using blobTask_no_decode env locator σ b bb
      have h2 := ih σ
      simp [h1, h2]

theorem blobTask_ok_mono (env : FetchEnv) (locator : String) (σ : LocalStore)
    (blob : Descriptor) (σ2 : LocalStore) (evs : List Ev)
    (h : blobTask env locator σ blob = (Except.ok σ2, evs)) :
    ∀ q ∈ σ, q ∈ σ2 := by
  unfold blobTask at h
  split at h
  · exact absurd h (by simp)
  · next rc evsF heq =>
    have h1 : σ = σ2 := by simpa using congrArg Prod.fst h
    intro q hq
    rw [← h1]
    exact hq
  · next rc evsF heq =>
    have h1 : (StoreArtifact env σ blob rc).1 = Except.ok σ2 := by
      simpa using congrArg Prod.fst h
    unfold StoreArtifact at h1
    split at h1
    · exact absurd h1 (by simp)
    · split at h1
      · exact absurd h1 (by simp)
      · have h2 : (blob.digest, rc.bytes) :: σ = σ2 := by simpa using h1
        intro q hq
        rw [← h2]
        exact List.mem_cons_of_mem _ hq

theorem runBlobTasks_mono (env : FetchEnv) (locator : String) (bs : List Descriptor) :
    ∀ σ, ∀ q ∈ σ, q ∈ (runBlobTasks env locator σ bs).1 := by
  induction bs with
  | nil => intro σ q hq; simpa [runBlobTasks] using hq
  | cons b bs ih =>
    intro σ q hq
    unfold runBlobTasks
    split
    · next σ2 evs heq =>
      exact ih σ2 q (blobTask_ok_mono env locator σ b σ2 evs heq q hq)
    · next e evs heq =>
      exact ih σ q hq

theorem runBlobTasks_append_fst (env : FetchEnv) (locator : String)
    (as bs : List Descriptor) :
    ∀ σ, (runBlobTasks env locator σ (as ++ bs)).1 =
      (runBlobTasks env locator (runBlobTasks env locator σ as).1 bs).1 := by
  induction as with
  | nil => intro σ; simp [runBlobTasks]
  | cons a as ih =>
    intro σ
    rcases hb : blobTask env locator σ a with ⟨r, evs⟩
    cases r with
    | ok σ2 =>
      simp only [List.cons_append, runBlobTasks, hb]
      exact ih σ2
    | error e =>
      simp only [List.cons_append, runBlobTasks, hb]
      exact ih σ

theorem runBlobTasks_length (env : FetchEnv) (locator : String) (bs : List Descriptor) :
    ∀ σ, (runBlobTasks env locator σ bs).2.1.length = bs.length := by
  induction bs with
  | nil => intro σ; simp [runBlobTasks]
  | cons b bs ih =>
    intro σ
    unfold runBlobTasks
    split
    · next σ2 evs heq => simpa using ih σ2
    · next e evs heq => simpa using ih σ

theorem firstErr_none_iff (rs : List (Option String)) :
    firstErr rs = none ↔ ∀ r ∈ rs, r = none := by
  induction rs with
  | nil => simp [firstErr]
  | cons r rs ih =>
    cases r with
    | none => simpa [firstErr] using ih
    | some e => simp [firstErr]

theorem countP_decode_eq_zero (l : List Ev) (h : ∀ bb, Ev.decodeIndex bb ∉ l) :
    List.countP isDecodeEv l = 0 := by
  rw [List.countP_eq_zero]
  intro a ha hP
  cases a <;> simp [isDecodeEv] at hP
  next bb => exact (h bb) ha

theorem fsa_of_prep_ok (env : FetchEnv) (imageRef indexDigest : String) (σ : LocalStore)
    (sched : List Descriptor) (p : PrepOk) (evs : List Ev)
    (hprep : FetchSociArtifactsPrep env imageRef indexDigest σ = (Except.ok p, evs)) :
    (FetchSociArtifacts env imageRef indexDigest σ sched).2.1 =
      (runBlobTasks env p.locator p.store sched).1 ∧
    (FetchSociArtifacts env imageRef indexDigest σ sched).2.2 =
      evs ++ (runBlobTasks env p.locator p.store sched).2.2 ∧
    ((FetchSociArtifacts env imageRef indexDigest σ sched).1 = Except.ok p.index ↔
      firstErr (runBlobTasks env p.locator p.store sched).2.1 = none) ∧
    (∀ e, firstErr (runBlobTasks env p.locator p.store sched).2.1 = some e →
      (FetchSociArtifacts env imageRef indexDigest σ sched).1 =
        Except.error (MatErr.blobTaskFail e)) := by
  unfold FetchSociArtifacts
  rw [hprep]
  rcases hfe : firstErr (runBlobTasks env p.locator p.store sched).2.1 with _ | e
  · refine ⟨by simp [hfe], by simp [hfe], by simp [hfe], ?_⟩
    intro e2 he2
    exact absurd he2 (by simp)
  · refine ⟨by simp [hfe], by simp [hfe], by simp [hfe], ?_⟩
    intro e2 he2
    injection he2 with h2
    subst h2
    simp [hfe]

/-- C1: for a descriptor of size 0 that the local store misses, `Fetch`
invokes the resolver before any remote fetch (the trace starts with the
local probe and then the resolver call); when resolution fails, `Fetch`
returns the dedicated resolution error — never the remote-fetch error
constructor — and the remote store is not contacted at all. -/
theorem fetch_zero_size_resolves_first (env : FetchEnv) (locator : String)
    (σ : LocalStore) (d : Descriptor) (e : String)
    (hsize : d.size = 0) (hmiss : env.localFetch σ d = Except.error e) :
    (∃ rest, (Fetch env locator σ d).2 =
      Ev.localFetch d :: Ev.resolverResolve (constructRef locator d) :: rest) ∧
    (∀ re, env.resolverResolve (constructRef locator d) = Except.error re →
      Fetch env locator σ d =
        (Except.error (FetchErr.resolution ("size of descriptor is 0; unable to resolve: " ++
            ("unable to resolve ref (" ++ constructRef locator d ++ "): " ++ re))),
          [Ev.localFetch d, Ev.resolverResolve (constructRef locator d)]) ∧
      (∀ dg m, (Fetch env locator σ d).1 ≠ Except.error (FetchErr.remote dg m)) ∧
      (∀ d2, Ev.remoteFetch d2 ∉ (Fetch env locator σ d).2)) := by
  have hfetch : Fetch env locator σ d =
      ((remoteFallback env locator d).1,
        Ev.localFetch d :: (remoteFallback env locator d).2) := by
    unfold Fetch
    rw [hmiss]
  constructor
  · rw [hfetch]
    unfold remoteFallback
    rw [if_pos hsize]
    rcases hres : resolveDescriptor env locator d with ⟨r, evs⟩
    have hevs : evs = [Ev.resolverResolve (constructRef locator d)] := by
      have h2 := congrArg Prod.snd hres
      rw [resolveDescriptor_snd] at h2
      simpa using h2.symm
    cases r with
    | error e2 => exact ⟨[], by simp [hevs]⟩
    | ok d2 => exact ⟨(remoteFetchStep env d2).2, by simp [hevs]⟩
  · intro re hre
    have hresolve : resolveDescriptor env locator d =
        (Except.error ("unable to resolve ref (" ++ constructRef locator d ++ "): " ++ re),
          [Ev.resolverResolve (constructRef locator d)]) := by
      unfold resolveDescriptor
      rw [hre]
    have hfall : remoteFallback env locator d =
        (Except.error (FetchErr.resolution ("size of descriptor is 0; unable to resolve: " ++
            ("unable to resolve ref (" ++ constructRef locator d ++ "): " ++ re))),
          [Ev.resolverResolve (constructRef locator d)]) := by
      unfold remoteFallback
      rw [if_pos hsize, hresolve]
    rw [hfetch, hfall]
    refine ⟨rfl, ?_, ?_⟩ <;> simp

/-- C2: when the local store produces the content, `Fetch` returns exactly
that content with the local flag set, and its trace shows no resolver call
and no remote-store call. -/
theorem fetch_local_hit (env : FetchEnv) (locator : String) (σ : LocalStore)
    (d : Descriptor) (rc : ByteStream) (h : env.localFetch σ d = Except.ok rc) :
    Fetch env locator σ d = (Except.ok (rc, true), [Ev.localFetch d]) ∧
    (∀ r, Ev.resolverResolve r ∉ (Fetch env locator σ d).2) ∧
    (∀ d2, Ev.remoteFetch d2 ∉ (Fetch env locator σ d).2) := by
  have h1 : Fetch env locator σ d = (Except.ok (rc, true), [Ev.localFetch d]) := by
    unfold Fetch
    rw [h]
  refine ⟨h1, ?_, ?_⟩ <;> simp [h1]

/-- C8: every local-store fetch error — whatever the error — is treated as
a silent miss: the result of `Fetch` is exactly the remote-fallback path,
a function of neither the local store state nor the error value, so two
stores failing with different errors yield identical results and no
local-store error reaches the caller. -/
theorem fetch_local_error_silent_miss (env : FetchEnv) (locator : String)
    (σ σ2 : LocalStore) (d : Descriptor) (e e2 : String)
    (h : env.localFetch σ d = Except.error e)
    (h2 : env.localFetch σ2 d = Except.error e2) :
    Fetch env locator σ d =
      ((remoteFallback env locator d).1,
        Ev.localFetch d :: (remoteFallback env locator d).2) ∧
    Fetch env locator σ d = Fetch env locator σ2 d := by
  constructor
  · unfold Fetch
    rw [h]
  · unfold Fetch
    rw [h, h2]

/-- C5: whenever `BackoffStrategy` computes a delay on the exponential path
(no Retry-After hint), the delay is at least the unjittered base delay of
`DefaultBackoff`, strictly below that base delay times 1.125 (stated
integrally as 8 times the delay below 9 times the base), and the base
delay never exceeds the configured maximum wait. -/
theorem backoff_strategy_bounds (minWait maxWait k j d : Nat)
    (h : BackoffStrategy minWait maxWait k none j = some d) :
    DefaultBackoff minWait maxWait k none ≤ d ∧
    8 * d < 9 * DefaultBackoff minWait maxWait k none ∧
    DefaultBackoff minWait maxWait k none ≤ maxWait := by
  unfold BackoffStrategy Jitter at h
  split at h
  · exact absurd h (by simp)
  · next hne =>
    have hd : j % (DefaultBackoff minWait maxWait k none / 8) +
        DefaultBackoff minWait maxWait k none = d := by
      simpa using h
    have hpos : 0 < DefaultBackoff minWait maxWait k none / 8 :=
      Nat.pos_of_ne_zero hne
    have hmod : j % (DefaultBackoff minWait maxWait k none / 8) <
        DefaultBackoff minWait maxWait k none / 8 := Nat.mod_lt _ hpos
    have hdiv : DefaultBackoff minWait maxWait k none / 8 * 8 ≤
        DefaultBackoff minWait maxWait k none := Nat.div_mul_le_self _ 8
    have hmax : DefaultBackoff minWait maxWait k none ≤ maxWait := by
      simp only [DefaultBackoff]
      split <;> omega
    exact ⟨by omega, by omega, hmax⟩

/-- C6: the retry decision of `RetryStrategy` on a response status: retry
for 429 and every status in 500–599 other than 501; no retry for 501 and
for every status in 200–399. -/
theorem retry_status_classification (status : Nat) :
    ((status = 429 ∨ (500 ≤ status ∧ status ≤ 599 ∧ status ≠ 501)) →
      RetryStrategy (RequestOutcome.response status) = true) ∧
    ((status = 501 ∨ (200 ≤ status ∧ status ≤ 399)) →
      RetryStrategy (RequestOutcome.response status) = false) := by
  unfold RetryStrategy DefaultRetryPolicy
  constructor
  · rintro (rfl | ⟨h1, h2, h3⟩)
    · simp
    · simp only [Bool.or_eq_true, beq_iff_eq, Bool.and_eq_true, decide_eq_true_eq,
        bne_iff_ne, ne_eq]
      omega
  · rintro (rfl | ⟨h1, h2⟩)
    · simp
    · simp only [Bool.or_eq_false_iff, beq_eq_false_iff_ne, ne_eq, Bool.and_eq_false_iff,
        decide_eq_false_iff_not, not_le, bne_eq_false_iff_eq]
      omega

/-- C3: when the index was fetched from remote, `FetchSociArtifacts` pushes
the raw index bytes into the caller-supplied local store under the parsed
digest with the exact drained byte count as the size; a push failure fails
the whole call and leaves the store unchanged; a successful push leaves the
index entry in the final store on every schedule, so any non-error result
whose index came from remote has the index durably cached locally. -/
theorem materialize_remote_index_cached (env : FetchEnv)
    (imageRef indexDigest loc dgst : String) (σ0 : LocalStore)
    (rc : ByteStream) (evsF : List Ev) (index : SociIndex)
    (hl : env.parseReference imageRef = Except.ok loc)
    (hrepo : env.newRepositoryErr loc = none)
    (hd : env.parseDigest indexDigest = Except.ok dgst)
    (hf : Fetch env loc σ0 (Descriptor.mk dgst 0) = (Except.ok (rc, false), evsF))
    (hre : rc.readErr = none)
    (hdec : env.decodeIndex rc.bytes = Except.ok index) :
    (∀ sched, Ev.pushLocal (Descriptor.mk dgst (rc.bytes.length : Int)) rc.bytes ∈
      (FetchSociArtifacts env imageRef indexDigest σ0 sched).2.2) ∧
    (∀ e, env.pushErr σ0 (Descriptor.mk dgst (rc.bytes.length : Int)) rc.bytes = some e →
      ∀ sched, FetchSociArtifacts env imageRef indexDigest σ0 sched =
        (Except.error (MatErr.indexPush e), σ0,
          evsF ++ [Ev.closeStream, Ev.decodeIndex rc.bytes,
            Ev.pushLocal (Descriptor.mk dgst (rc.bytes.length : Int)) rc.bytes])) ∧
    (env.pushErr σ0 (Descriptor.mk dgst (rc.bytes.length : Int)) rc.bytes = none →
      ∀ sched, (dgst, rc.bytes) ∈
        (FetchSociArtifacts env imageRef indexDigest σ0 sched).2.1) ∧
    (∀ sched i, (FetchSociArtifacts env imageRef indexDigest σ0 sched).1 = Except.ok i →
      (dgst, rc.bytes) ∈ (FetchSociArtifacts env imageRef indexDigest σ0 sched).2.1) := by
  rcases hpe : env.pushErr σ0 (Descriptor.mk dgst (rc.bytes.length : Int)) rc.bytes with _ | e
  · have hprep : FetchSociArtifactsPrep env imageRef indexDigest σ0 =
        (Except.ok (PrepOk.mk index loc dgst rc.bytes false ((dgst, rc.bytes) :: σ0)),
          evsF ++ [Ev.closeStream, Ev.decodeIndex rc.bytes,
            Ev.pushLocal (Descriptor.mk dgst (rc.bytes.length : Int)) rc.bytes]) := by
      unfold FetchSociArtifactsPrep
      simp only [hl, hrepo, hd, hf, hre, hdec, hpe]
      simp
    have hmem : ∀ sched, (dgst, rc.bytes) ∈
        (FetchSociArtifacts env imageRef indexDigest σ0 sched).2.1 := by
      intro sched
      obtain ⟨hst, -, -, -⟩ := fsa_of_prep_ok env imageRef indexDigest σ0 sched _ _ hprep
      rw [hst]
      exact runBlobTasks_mono env loc sched _ _ (by simp)
    refine ⟨?_, ?_, fun _ => hmem, fun sched i _ => hmem sched⟩
    · intro sched
      obtain ⟨-, htr, -, -⟩ := fsa_of_prep_ok env imageRef indexDigest σ0 sched _ _ hprep
      rw [htr]
      simp
    · intro e he
      exact absurd he (by simp)
  · have hprep : FetchSociArtifactsPrep env imageRef indexDigest σ0 =
        (Except.error (MatErr.indexPush e),
          evsF ++ [Ev.closeStream, Ev.decodeIndex rc.bytes,
            Ev.pushLocal (Descriptor.mk dgst (rc.bytes.length : Int)) rc.bytes]) := by
      unfold FetchSociArtifactsPrep
      simp only [hl, hrepo, hd, hf, hre, hdec, hpe]
      simp
    have hfsa : ∀ sched, FetchSociArtifacts env imageRef indexDigest σ0 sched =
        (Except.error (MatErr.indexPush e), σ0,
          evsF ++ [Ev.closeStream, Ev.decodeIndex rc.bytes,
            Ev.pushLocal (Descriptor.mk dgst (rc.bytes.length : Int)) rc.bytes]) := by
      intro sched
      unfold FetchSociArtifacts
      rw [hprep]
    refine ⟨?_, ?_, ?_, ?_⟩
    · intro sched
      rw [hfsa]
      simp
    · intro e2 he2
      injection he2 with h2
      subst h2
      exact hfsa
    · intro hnone
      exact absurd hnone (by simp)
    · intro sched i hok
      rw [hfsa] at hok
      exact absurd hok (by simp)

/-- C4: given a successful sequential head, the blob phase runs one task
per blob listed in the index (any linearization of the blob list has that
length), succeeds exactly when every task succeeded, reports the first
error of the linearization as the overall error otherwise, and never rolls
back: everything in the store after any prefix of the tasks — including
entries pushed by tasks that succeeded before a sibling failed — is still
in the store `FetchSociArtifacts` returns. -/
theorem materialize_blob_tasks_first_error_no_rollback (env : FetchEnv)
    (imageRef indexDigest : String) (σ0 : LocalStore)
    (sched : List Descriptor) (p : PrepOk) (evs : List Ev)
    (hprep : FetchSociArtifactsPrep env imageRef indexDigest σ0 = (Except.ok p, evs))
    (hperm : sched.Perm p.index.blobs) :
    (runBlobTasks env p.locator p.store sched).2.1.length = p.index.blobs.length ∧
    ((FetchSociArtifacts env imageRef indexDigest σ0 sched).1 = Except.ok p.index ↔
      ∀ r ∈ (runBlobTasks env p.locator p.store sched).2.1, r = none) ∧
    (∀ e, firstErr (runBlobTasks env p.locator p.store sched).2.1 = some e →
      (FetchSociArtifacts env imageRef indexDigest σ0 sched).1 =
        Except.error (MatErr.blobTaskFail e)) ∧
    (∀ done rest, sched = done ++ rest →
      ∀ q ∈ (runBlobTasks env p.locator p.store done).1,
        q ∈ (FetchSociArtifacts env imageRef indexDigest σ0 sched).2.1) := by
  obtain ⟨hst, htr, hok, herr⟩ := fsa_of_prep_ok env imageRef indexDigest σ0 sched p evs hprep
  refine ⟨?_, ?_, herr, ?_⟩
  · rw [runBlobTasks_length, hperm.length_eq]
  · rw [hok, firstErr_none_iff]
  · intro done rest hsched q hq
    rw [hst, hsched, runBlobTasks_append_fst]
    exact runBlobTasks_mono env p.locator rest _ q hq

/-- C9: if decoding the index bytes fails, `FetchSociArtifacts` returns the
decode error with the local store exactly as it was given — its trace shows
no push at all and stops at the decode call, before any blob task. -/
theorem materialize_decode_failure_no_push (env : FetchEnv)
    (imageRef indexDigest loc dgst : String) (σ0 : LocalStore)
    (rc : ByteStream) (lcl : Bool) (evsF : List Ev) (e : String)
    (hl : env.parseReference imageRef = Except.ok loc)
    (hrepo : env.newRepositoryErr loc = none)
    (hd : env.parseDigest indexDigest = Except.ok dgst)
    (hf : Fetch env loc σ0 (Descriptor.mk dgst 0) = (Except.ok (rc, lcl), evsF))
    (hre : rc.readErr = none)
    (hdec : env.decodeIndex rc.bytes = Except.error e) :
    ∀ sched,
      FetchSociArtifacts env imageRef indexDigest σ0 sched =
        (Except.error (MatErr.indexDecode e), σ0,
          evsF ++ [Ev.closeStream, Ev.decodeIndex rc.bytes]) ∧
      (FetchSociArtifacts env imageRef indexDigest σ0 sched).2.1 = σ0 ∧
      (∀ dd bb, Ev.pushLocal dd bb ∉
        (FetchSociArtifacts env imageRef indexDigest σ0 sched).2.2) := by
  have hprep : FetchSociArtifactsPrep env imageRef indexDigest σ0 =
      (Except.error (MatErr.indexDecode e),
        evsF ++ [Ev.closeStream, Ev.decodeIndex rc.bytes]) := by
    unfold FetchSociArtifactsPrep
    simp only [hl, hrepo, hd, hf, hre, hdec]
  intro sched
  have hfsa : FetchSociArtifacts env imageRef indexDigest σ0 sched =
      (Except.error (MatErr.indexDecode e), σ0,
        evsF ++ [Ev.closeStream, Ev.decodeIndex rc.bytes]) := by
    unfold FetchSociArtifacts
    rw [hprep]
  refine ⟨hfsa, by rw [hfsa], ?_⟩
  intro dd bb
  rw [hfsa]
  have h1 : Ev.pushLocal dd bb ∉ evsF := by
    simpa [hf] using fetch_no_push env loc σ0 (Descriptor.mk dgst 0) dd bb
  simp [h1]

/-- C7 counterexample: the claim has the index bytes decoded as the
table-based binary encoding of the schema; the decoder `FetchSociArtifacts`
invokes is `json.Unmarshal`, and the table-based binary schema in the
sources designates `Ztoc` — the format of the blobs, not of the index — as
its root type. -/
theorem index_decode_format_cex :
    sociIndexWireFormat = WireFormat.json ∧
    sociIndexWireFormat ≠ WireFormat.tableBinary ∧
    ztocSchemaRootType = "Ztoc" := by
  refine ⟨rfl, by decide, rfl⟩

/-- C7 (amended): `FetchSociArtifacts` fully drains the fetched index
stream (the decoder receives the entire stream content), closes it before
decoding, decodes exactly once — decode failure is fatal and never
retried — and the decoding is JSON unmarshalling, not the table-based
binary encoding (which is the ztoc blob format). -/
theorem materialize_index_decode_json (env : FetchEnv)
    (imageRef indexDigest loc dgst : String) (σ0 : LocalStore)
    (rc : ByteStream) (lcl : Bool) (evsF : List Ev)
    (hl : env.parseReference imageRef = Except.ok loc)
    (hrepo : env.newRepositoryErr loc = none)
    (hd : env.parseDigest indexDigest = Except.ok dgst)
    (hf : Fetch env loc σ0 (Descriptor.mk dgst 0) = (Except.ok (rc, lcl), evsF))
    (hre : rc.readErr = none) :
    ∀ sched,
      (∃ tail, (FetchSociArtifacts env imageRef indexDigest σ0 sched).2.2 =
        evsF ++ Ev.closeStream :: Ev.decodeIndex rc.bytes :: tail) ∧
      List.countP isDecodeEv
        (FetchSociArtifacts env imageRef indexDigest σ0 sched).2.2 = 1 ∧
      (∀ e, env.decodeIndex rc.bytes = Except.error e →
        (FetchSociArtifacts env imageRef indexDigest σ0 sched).1 =
          Except.error (MatErr.indexDecode e)) ∧
      sociIndexWireFormat = WireFormat.json := by
  have hcF : List.countP isDecodeEv evsF = 0 := by
    refine countP_decode_eq_zero evsF ?_
    intro bb
    simpa [hf] using fetch_no_decode env loc σ0 (Descriptor.mk dgst 0) bb
  intro sched
  rcases hdec : env.decodeIndex rc.bytes with e | index
  · -- decode fails: the whole call stops at the decode
    have hprep : FetchSociArtifactsPrep env imageRef indexDigest σ0 =
        (Except.error (MatErr.indexDecode e),
          evsF ++ [Ev.closeStream, Ev.decodeIndex rc.bytes]) := by
      unfold FetchSociArtifactsPrep
      simp only [hl, hrepo, hd, hf, hre, hdec]
    have hfsa : FetchSociArtifacts env imageRef indexDigest σ0 sched =
        (Except.error (MatErr.indexDecode e), σ0,
          evsF ++ [Ev.closeStream, Ev.decodeIndex rc.bytes]) := by
      unfold FetchSociArtifacts
      rw [hprep]
    refine ⟨⟨[], by rw [hfsa]⟩, ?_, ?_, rfl⟩
    · rw [hfsa]
      simp [List.countP_append, hcF, isDecodeEv, List.countP_cons]
    · intro e2 he2
      injection he2 with h2
      subst h2
      rw [hfsa]
  · -- decode succeeds
    have hctask : List.countP isDecodeEv
        (runBlobTasks env loc ((dgst, rc.bytes) :: σ0) sched).2.2 = 0 :=
      countP_decode_eq_zero _ (fun bb => runBlobTasks_no_decode env loc sched bb _)
    have hctask2 : List.countP isDecodeEv (runBlobTasks env loc σ0 sched).2.2 = 0 :=
      countP_decode_eq_zero _ (fun bb => runBlobTasks_no_decode env loc sched bb _)
    cases lcl with
    | true =>
      have hprep : FetchSociArtifactsPrep env imageRef indexDigest σ0 =
          (Except.ok (PrepOk.mk index loc dgst rc.bytes true σ0),
            evsF ++ [Ev.closeStream, Ev.decodeIndex rc.bytes]) := by
        unfold FetchSociArtifactsPrep
        simp only [hl, hrepo, hd, hf, hre, hdec]
        simp
      obtain ⟨-, htr, -, -⟩ :=
        fsa_of_prep_ok env imageRef indexDigest σ0 sched _ _ hprep
      refine ⟨⟨(runBlobTasks env loc σ0 sched).2.2, by rw [htr]; simp⟩, ?_,
        ?_, rfl⟩
      · rw [htr]
        simp [List.countP_append, hcF, isDecodeEv, List.countP_cons, hctask2]
      · intro e2 he2
        exact absurd he2 (by simp)
    | false =>
      rcases hpe : env.pushErr σ0 (Descriptor.mk dgst (rc.bytes.length : Int))
          rc.bytes with _ | e2
      · have hprep : FetchSociArtifactsPrep env imageRef indexDigest σ0 =
            (Except.ok (PrepOk.mk index loc dgst rc.bytes false ((dgst, rc.bytes) :: σ0)),
              evsF ++ [Ev.closeStream, Ev.decodeIndex rc.bytes,
                Ev.pushLocal (Descriptor.mk dgst (rc.bytes.length : Int)) rc.bytes]) := by
          unfold FetchSociArtifactsPrep
          simp only [hl, hrepo, hd, hf, hre, hdec, hpe]
          simp
        obtain ⟨-, htr, -, -⟩ :=
          fsa_of_prep_ok env imageRef indexDigest σ0 sched _ _ hprep
        refine ⟨⟨Ev.pushLocal (Descriptor.mk dgst (rc.bytes.length : Int)) rc.bytes ::
          (runBlobTasks env loc ((dgst, rc.bytes) :: σ0) sched).2.2, by rw [htr]; simp⟩,
          ?_, ?_, rfl⟩
        · rw [htr]
          simp [List.countP_append, hcF, isDecodeEv, List.countP_cons, hctask]
        · intro e3 he3
          exact absurd he3 (by simp)
      · have hprep : FetchSociArtifactsPrep env imageRef indexDigest σ0 =
            (Except.error (MatErr.indexPush e2),
              evsF ++ [Ev.closeStream, Ev.decodeIndex rc.bytes,
                Ev.pushLocal (Descriptor.mk dgst (rc.bytes.length : Int)) rc.bytes]) := by
          unfold FetchSociArtifactsPrep
          simp only [hl, hrepo, hd, hf, hre, hdec, hpe]
          simp
        have hfsa : FetchSociArtifacts env imageRef indexDigest σ0 sched =
            (Except.error (MatErr.indexPush e2), σ0,
              evsF ++ [Ev.closeStream, Ev.decodeIndex rc.bytes,
                Ev.pushLocal (Descriptor.mk dgst (rc.bytes.length : Int)) rc.bytes]) := by
          unfold FetchSociArtifacts
          rw [hprep]
        refine ⟨⟨[Ev.pushLocal (Descriptor.mk dgst (rc.bytes.length : Int)) rc.bytes],
          by rw [hfsa]⟩, ?_, ?_, rfl⟩
        · rw [hfsa]
          simp [List.countP_append, hcF, isDecodeEv, List.countP_cons]
        · intro e3 he3
          exact absurd he3 (by simp)

/-- C10 counterexample: a minimum wait of 30 ms (at least the divisor of 8
nanoseconds) does not make the undefined branch of `Jitter` unreachable:
with a maximum wait of 2 ns the exponential backoff returns the maximum —
below the minimum wait, contradicting the claim's premise that it never
does — and `BackoffStrategy` reaches the undefined draw. -/
theorem jitter_min_precondition_cex :
    8 ≤ 30000000 ∧
    DefaultBackoff 30000000 2 0 none < 30000000 ∧
    BackoffStrategy 30000000 2 0 none 0 = none := by
  refine ⟨by norm_num, by decide, by decide⟩

/-- C10 (amended): `Jitter` is undefined exactly when duration over divisor
is zero; when both the configured minimum and maximum waits are at least
the divisor (8) in nanoseconds — as the defaults are — the undefined branch
is unreachable on the exponential path and the jittered delay lies in
the interval from the base delay (inclusive) to the base delay plus its
eighth (exclusive). -/
theorem jitter_welldefined_bounds (minWait maxWait k j : Nat)
    (hmin : 8 ≤ minWait) (hmax : 8 ≤ maxWait) :
    (∀ dur j2, dur / 8 = 0 → Jitter dur 8 j2 = none) ∧
    ∃ d, BackoffStrategy minWait maxWait k none j = some d ∧
      DefaultBackoff minWait maxWait k none ≤ d ∧
      d < DefaultBackoff minWait maxWait k none +
        DefaultBackoff minWait maxWait k none / 8 := by
  constructor
  · intro dur j2 h
    unfold Jitter
    rw [if_pos h]
  · have hb : 8 ≤ DefaultBackoff minWait maxWait k none := by
      have h1 : minWait ≤ 2 ^ k * minWait :=
        Nat.le_mul_of_pos_left minWait (Nat.pos_pow_of_pos k (by norm_num))
      simp only [DefaultBackoff]
      split <;> omega
    have hdiv : 0 < DefaultBackoff minWait maxWait k none / 8 :=
      Nat.div_pos hb (by norm_num)
    refine ⟨j % (DefaultBackoff minWait maxWait k none / 8) +
      DefaultBackoff minWait maxWait k none, ?_, ?_, ?_⟩
    · unfold BackoffStrategy Jitter
      rw [if_neg (Nat.pos_iff_ne_zero.mp hdiv)]
    · exact Nat.le_add_left _ _
    · have hmod : j % (DefaultBackoff minWait maxWait k none / 8) <
        DefaultBackoff minWait maxWait k none / 8 := Nat.mod_lt _ hdiv
      omega

/-- Witness for C1, at the concrete failing-resolver behaviour. -/
theorem fetch_zero_size_resolves_first_witness :
    Fetch cenvResolveFail "r" [] (Descriptor.mk "dg" 0) =
      (Except.error (FetchErr.resolution ("size of descriptor is 0; unable to resolve: " ++
          ("unable to resolve ref (" ++ constructRef "r" (Descriptor.mk "dg" 0) ++ "): " ++
            "nope"))),
        [Ev.localFetch (Descriptor.mk "dg" 0),
          Ev.resolverResolve (constructRef "r" (Descriptor.mk "dg" 0))]) :=
  ((fetch_zero_size_resolves_first cenvResolveFail "r" [] (Descriptor.mk "dg" 0)
    "not found" rfl rfl).2 "nope" rfl).1

/-- Witness for C2, at the concrete always-hitting local store. -/
theorem fetch_local_hit_witness :
    Fetch cenvLocalHit "r" [] (Descriptor.mk "dg" 3) =
      (Except.ok (ByteStream.mk [1] none, true), [Ev.localFetch (Descriptor.mk "dg" 3)]) :=
  (fetch_local_hit cenvLocalHit "r" [] (Descriptor.mk "dg" 3) (ByteStream.mk [1] none) rfl).1

/-- Witness for C8: two different erroring local stores give the same
fetch result. -/
theorem fetch_local_error_silent_miss_witness :
    Fetch cenv "r" [] (Descriptor.mk "dg" 3) =
      Fetch cenv "r" [("x", [1])] (Descriptor.mk "dg" 3) :=
  (fetch_local_error_silent_miss cenv "r" [] [("x", [1])] (Descriptor.mk "dg" 3)
    "not found" "not found" rfl rfl).2

/-- Witness for C3: the remote-fetched index ends up cached in the final
local store. -/
theorem materialize_remote_index_cached_witness :
    ("sha256:idx", ([7, 7] : Content)) ∈
      (FetchSociArtifacts cenv "r" "sha256:idx" []
        [Descriptor.mk "b1" 1, Descriptor.mk "b2" 99]).2.1 :=
  (materialize_remote_index_cached cenv "r" "sha256:idx" "r" "sha256:idx" []
      (ByteStream.mk [7, 7] none)
      [Ev.localFetch (Descriptor.mk "sha256:idx" 0), Ev.resolverResolve "r@sha256:idx",
        Ev.remoteFetch (Descriptor.mk "sha256:idx" 4)]
      (SociIndex.mk [Descriptor.mk "b1" 1, Descriptor.mk "b2" 99])
      rfl rfl rfl rfl rfl rfl).2.2.1 rfl
    [Descriptor.mk "b1" 1, Descriptor.mk "b2" 99]

/-- Witness for C4, at a two-blob index. -/
theorem materialize_blob_tasks_first_error_no_rollback_witness :
    (runBlobTasks cenv "r" [("sha256:idx", [7, 7])]
      [Descriptor.mk "b1" 1, Descriptor.mk "b2" 99]).2.1.length = 2 := by
  have h := materialize_blob_tasks_first_error_no_rollback cenv "r" "sha256:idx" []
    [Descriptor.mk "b1" 1, Descriptor.mk "b2" 99]
    (PrepOk.mk (SociIndex.mk [Descriptor.mk "b1" 1, Descriptor.mk "b2" 99]) "r" "sha256:idx"
      [7, 7] false [("sha256:idx", [7, 7])])
    [Ev.localFetch (Descriptor.mk "sha256:idx" 0), Ev.resolverResolve "r@sha256:idx",
      Ev.remoteFetch (Descriptor.mk "sha256:idx" 4), Ev.closeStream, Ev.decodeIndex [7, 7],
      Ev.pushLocal (Descriptor.mk "sha256:idx" 2) [7, 7]]
    rfl (List.Perm.refl _)
  exact h.1

/-- Witness for C9: on a decode failure the local store stays empty. -/
theorem materialize_decode_failure_no_push_witness :
    (FetchSociArtifacts cenvDecodeFail "r" "sha256:idx" [] []).2.1 = [] :=
  ((materialize_decode_failure_no_push cenvDecodeFail "r" "sha256:idx" "r" "sha256:idx" []
      (ByteStream.mk [7, 7] none) false
      [Ev.localFetch (Descriptor.mk "sha256:idx" 0), Ev.resolverResolve "r@sha256:idx",
        Ev.remoteFetch (Descriptor.mk "sha256:idx" 4)] "bad json"
      rfl rfl rfl rfl rfl rfl) []).2.1

/-- Witness for C7 (amended): a concrete decode failure is fatal. -/
theorem materialize_index_decode_json_witness :
    (FetchSociArtifacts cenvDecodeFail "r" "sha256:idx" [] []).1 =
      Except.error (MatErr.indexDecode "bad json") :=
  ((materialize_index_decode_json cenvDecodeFail "r" "sha256:idx" "r" "sha256:idx" []
      (ByteStream.mk [7, 7] none) false
      [Ev.localFetch (Descriptor.mk "sha256:idx" 0), Ev.resolverResolve "r@sha256:idx",
        Ev.remoteFetch (Descriptor.mk "sha256:idx" 4)]
      rfl rfl rfl rfl rfl) []).2.2.1 "bad json" rfl

/-- Witness for C5, at the default configuration and attempt 3. -/
theorem backoff_strategy_bounds_witness :
    DefaultBackoff 30000000 300000000000 3 none ≤ 240000005 ∧
    8 * 240000005 < 9 * DefaultBackoff 30000000 300000000000 3 none ∧
    DefaultBackoff 30000000 300000000000 3 none ≤ 300000000000 :=
  backoff_strategy_bounds 30000000 300000000000 3 5 240000005 (by decide)

/-- Witness for C6, at statuses 503 and 501. -/
theorem retry_status_classification_witness :
    RetryStrategy (RequestOutcome.response 503) = true ∧
    RetryStrategy (RequestOutcome.response 501) = false :=
  ⟨(retry_status_classification 503).1 (Or.inr (by norm_num)),
    (retry_status_classification 501).2 (Or.inl rfl)⟩

/-- Witness for C10 (amended), at the default configuration. -/
theorem jitter_welldefined_bounds_witness :
    (∀ dur j2, dur / 8 = 0 → Jitter dur 8 j2 = none) ∧
    ∃ d, BackoffStrategy 30000000 300000000000 0 none 7 = some d ∧
      DefaultBackoff 30000000 300000000000 0 none ≤ d ∧
      d < DefaultBackoff 30000000 300000000000 0 none +
        DefaultBackoff 30000000 300000000000 0 none / 8 :=
  jitter_welldefined_bounds 30000000 300000000000 0 7 (by norm_num) (by norm_num)

end Soci
